import Mathlib

/-!
Verification of the result-refinement and ranking pipeline of `llmgrep`,
a CLI for semantic search over conversation logs.

The embedding models the TypeScript source:
* `src/unnamed/part_004` (and its earlier twin `src/unnamed/part_003`):
  `autoRefineSearch` and `binarySearchDistance`, the threshold-refinement
  engine;
* `src/unnamed/part_008` (`src/search-result.ts`): `attachEntries` and
  `sortByDistance`, the result assembler;
* `src/unnamed/part_010` (`src/types.ts`): the numeric constants;
* `src/src/spawn.ts` (utils section): `filterByDateRange`;
* `src/interactive-search.ts` `main`: the date-filter join and the
  auto-expand policy.

Modelling conventions:
* JavaScript numbers used as distances are modelled by `ℚ` (all distance
  arithmetic in the source stays within small dyadic/decimal rationals, so
  exact rational arithmetic matches the float behaviour on every input we
  evaluate, and halving `(left+right)/2` is exact);
* ISO-8601 timestamp strings compared through `new Date(...)` are modelled
  by their epoch value as `Option ℤ` (absent field ↦ `none`);
* the external similarity-search primitive (the spawned `search` command in
  `performSearch`) is a black box: it is modelled as a function
  `ℚ → Except Unit (List SearchResult)`, where `.error ()` stands for a
  rejected promise (non-zero exit status or spawn error) and `.ok rs` for a
  parsed result list;
* each engine function returns, next to its outcome, the trace of cutoffs
  it passed to the primitive, in call order, so call counts and probed
  cutoffs are part of the embedding's observable behaviour.
-/

/-- One extracted message span, `TextEntry` from `src/types.ts`
(`src/unnamed/part_010` lines 32-40). `timestamp` is the epoch value of the
optional ISO-8601 string. -/
structure TextEntry where
  text : String
  filePath : String
  projectPath : String
  cwd : Option String
  timestamp : Option ℤ
  role : Option String
  sessionId : Option String
  deriving DecidableEq

/-- One search hit, `SearchResult` from `src/types.ts` (`src/unnamed/part_010`
lines 42-46): a raw `(lineNumber, distance)` match with a nullable joined
entry (`null` ↦ `none`, as produced by `parseSearchOutput`). -/
structure SearchResult where
  lineNumber : ℕ
  distance : ℚ
  entry : Option TextEntry
  deriving DecidableEq

/-- `MAX_RESULTS_DISPLAY` from `src/types.ts`: the display-window ceiling W. -/
def MAX_RESULTS_DISPLAY : ℕ := 25

/-- `AUTO_REFINE_MAX_ATTEMPTS` from `src/types.ts`. -/
def AUTO_REFINE_MAX_ATTEMPTS : ℕ := 15

/-- `OPTIMAL_RESULT_MIN` from `src/types.ts`: the soft target `optimalMin`. -/
def OPTIMAL_RESULT_MIN : ℕ := 15

/-- `DISTANCE_THRESHOLDS` from `src/types.ts`: the staged probe distances. -/
def DISTANCE_THRESHOLDS : List ℚ := [3/10, 35/100, 4/10, 45/100, 5/10]

/-- `BINARY_SEARCH_PRECISION` from `src/types.ts`: minimum bracket width. -/
def BINARY_SEARCH_PRECISION : ℚ := 2/100

/-- `THRESHOLD_PRECISE` from `src/types.ts`. -/
def THRESHOLD_PRECISE : ℚ := 40/100

/-- `THRESHOLD_BROAD` from `src/types.ts`. -/
def THRESHOLD_BROAD : ℚ := 55/100

/-- `DEFAULT_DISTANCE` from `src/types.ts`: the interactive default cutoff. -/
def DEFAULT_DISTANCE : ℚ := THRESHOLD_PRECISE

/-- `EXPANDED_DISTANCE` from `src/types.ts`: the auto-expand fallback cutoff. -/
def EXPANDED_DISTANCE : ℚ := THRESHOLD_BROAD

/-- The external similarity-search primitive (`performSearch` wrapping the
spawned `search` command), abstracted over: give it a `maxDistance` cutoff,
receive either a failure or a list of raw matches. -/
abbrev SearchPrimitive := ℚ → Except Unit (List SearchResult)

/-- How the `while` loop of `binarySearchDistance` ends: either an early
acceptance inside the loop (`count >= OPTIMAL_RESULT_MIN`), or normal exit
with the final `bestDistance`/`bestCount` pair. -/
inductive BsLoopExit where
  | earlyAccept (cutoff : ℚ) (results : List SearchResult)
  | converged (bestDistance : ℚ) (bestCount : ℕ)
  deriving DecidableEq

/-- Terminal outcome of one `autoRefineSearch` run, distinguishing the call
site that produced the accepted results: `accepted` is the Stage-1 immediate
accept, `bracketAccepted` a success returned by `binarySearchDistance`,
`fallbackAccepted` the `lastGoodDistance` re-probe, and `exhausted` the
"could not find a good distance threshold" terminal message. -/
inductive RefineOutcome where
  | accepted (cutoff : ℚ) (results : List SearchResult)
  | bracketAccepted (cutoff : ℚ) (results : List SearchResult)
  | fallbackAccepted (cutoff : ℚ) (results : List SearchResult)
  | exhausted
  deriving DecidableEq

/-- The midpoint probe `(left + right) / 2` computed at the top of the
`binarySearchDistance` loop body (`src/unnamed/part_004` line 342). -/
def bsMid (left right : ℚ) : ℚ := (left + right) / 2

/-- The `while` loop of `binarySearchDistance` (`src/unnamed/part_004`
lines 335-370, identically `src/unnamed/part_003` lines 389-426).
`fuel` is the remaining attempt budget: the source condition is
`attempts < remainingAttempts && right - left > BINARY_SEARCH_PRECISION`
and `attempts` increments once per iteration. The early-accept branch
returns before `left` is widened, exactly as the source `return true`
does after `bestDistance`/`bestCount` were set to this midpoint's data,
which the exit value carries. The second component is the trace of
cutoffs probed by the loop. -/
def bsLoop (probe : SearchPrimitive) :
    ℕ → ℚ → ℚ → ℚ → ℕ → Except Unit BsLoopExit × List ℚ
  | 0, _, _, bestD, bestC => (.ok (.converged bestD bestC), [])
  | fuel+1, left, right, bestD, bestC =>
    if BINARY_SEARCH_PRECISION < right - left then
      match probe (bsMid left right) with
      | .error e => (.error e, [bsMid left right])
      | .ok res =>
        if res.length = 0 then
          let step := bsLoop probe fuel (bsMid left right) right bestD bestC
          (step.1, bsMid left right :: step.2)
        else if res.length ≤ MAX_RESULTS_DISPLAY then
          if OPTIMAL_RESULT_MIN ≤ res.length then
            (.ok (.earlyAccept (bsMid left right) res), [bsMid left right])
          else
            let step := bsLoop probe fuel (bsMid left right) right (bsMid left right) res.length
            (step.1, bsMid left right :: step.2)
        else
          let step := bsLoop probe fuel left (bsMid left right) bestD bestC
          (step.1, bsMid left right :: step.2)
    else (.ok (.converged bestD bestC), [])

/-- `binarySearchDistance` (`src/unnamed/part_004` lines 327-380,
`src/unnamed/part_003` lines 381-437): run the loop from
`left = minDistance`, `right = maxDistance`, `bestDistance = minDistance`,
`bestCount = 0`; afterwards, if some in-window count was recorded
(`bestCount > 0`), re-probe at `bestDistance` and succeed with those
results, else signal not-found (`none`, the source's `return false`). -/
def binarySearchDistance (probe : SearchPrimitive)
    (minDistance maxDistance : ℚ) (remainingAttempts : ℕ) :
    Except Unit (Option (ℚ × List SearchResult)) × List ℚ :=
  match bsLoop probe remainingAttempts minDistance maxDistance minDistance 0 with
  | (.error e, tr) => (.error e, tr)
  | (.ok (.earlyAccept cutoff res), tr) => (.ok (some (cutoff, res)), tr)
  | (.ok (.converged bestD bestC), tr) =>
    if 0 < bestC then
      match probe bestD with
      | .error e => (.error e, tr ++ [bestD])
      | .ok res => (.ok (some (bestD, res)), tr ++ [bestD])
    else (.ok none, tr)

/-- The two identical epilogues of `autoRefineSearch`: the
max-attempts-reached branch (`src/unnamed/part_004` lines 264-274) and the
fall-through after the probe loop (lines 316-325). JavaScript tests
`if (lastGoodDistance)` by truthiness, so a recorded distance of `0` would
take the exhausted path; `lastGood = none` models `lastGoodDistance === null`. -/
def arFinish (probe : SearchPrimitive) (lastGood : Option (ℚ × ℕ)) :
    Except Unit RefineOutcome × List ℚ :=
  match lastGood with
  | some (lgD, _) =>
    if lgD = 0 then (.ok .exhausted, [])
    else
      match probe lgD with
      | .error e => (.error e, [lgD])
      | .ok res => (.ok (.fallbackAccepted lgD res), [lgD])
  | none => (.ok .exhausted, [])

/-- The probe loop of `autoRefineSearch` (`src/unnamed/part_004`
lines 263-314, identically `src/unnamed/part_003` lines 311-366), recursing
over the remaining probe `distances`. `attempt` holds the source's `attempt`
counter before its post-increment test `attempt++ >= maxAttempts`, and
`lastGood` the `lastGoodDistance`/`lastGoodCount` pair (`none` for `null`).
Branches, in source order: zero results → next probe; `count <= 25` →
immediate accept; too many → optionally hand off to `binarySearchDistance`
when `lastGoodDistance !== null && lastGoodCount < 25`, then run the
source's (unreachable, see `arLoop_lastGood_none`) tracking update
`if (results.length <= 25) lastGoodDistance = distance` and continue.
The second component is the trace of all cutoffs probed. -/
def arLoop (probe : SearchPrimitive) (maxAttempts : ℕ) :
    List ℚ → ℕ → Option (ℚ × ℕ) → Except Unit RefineOutcome × List ℚ
  | [], _, lastGood => arFinish probe lastGood
  | distance :: rest, attempt, lastGood =>
    if maxAttempts ≤ attempt then
      arFinish probe lastGood
    else
      match probe distance with
      | .error e => (.error e, [distance])
      | .ok res =>
        if res.length = 0 then
          let step := arLoop probe maxAttempts rest (attempt + 1) lastGood
          (step.1, distance :: step.2)
        else if res.length ≤ MAX_RESULTS_DISPLAY then
          (.ok (.accepted distance res), [distance])
        else
          match lastGood with
          | some (lgD, lgC) =>
            if lgC < MAX_RESULTS_DISPLAY then
              match binarySearchDistance probe lgD distance (maxAttempts - (attempt + 1)) with
              | (.error e, tr) => (.error e, distance :: tr)
              | (.ok (some (cutoff, res2)), tr) =>
                (.ok (.bracketAccepted cutoff res2), distance :: tr)
              | (.ok none, tr) =>
                let lastGood2 :=
                  if res.length ≤ MAX_RESULTS_DISPLAY then some (distance, res.length)
                  else lastGood
                let step := arLoop probe maxAttempts rest (attempt + 1) lastGood2
                (step.1, distance :: (tr ++ step.2))
            else
              let lastGood2 :=
                if res.length ≤ MAX_RESULTS_DISPLAY then some (distance, res.length)
                else lastGood
              let step := arLoop probe maxAttempts rest (attempt + 1) lastGood2
              (step.1, distance :: step.2)
          | none =>
            let lastGood2 :=
              if res.length ≤ MAX_RESULTS_DISPLAY then some (distance, res.length)
              else lastGood
            let step := arLoop probe maxAttempts rest (attempt + 1) lastGood2
            (step.1, distance :: step.2)

/-- `autoRefineSearch` (`src/unnamed/part_004` lines 251-325): run the probe
loop over `DISTANCE_THRESHOLDS` with the default `maxAttempts` budget,
starting with `attempt = 0` and no recorded `lastGoodDistance`. -/
def autoRefineSearch (probe : SearchPrimitive) : Except Unit RefineOutcome × List ℚ :=
  arLoop probe AUTO_REFINE_MAX_ATTEMPTS DISTANCE_THRESHOLDS 0 none

/-- `attachEntries` (`src/unnamed/part_008` lines 51-59): join each match to
`entries[lineNumber]` when that index is populated, keep the match unchanged
(with its `null` entry) when it is out of bounds. -/
def attachEntries (results : List SearchResult) (entries : List TextEntry) :
    List SearchResult :=
  results.map fun result =>
    match entries[result.lineNumber]? with
    | some entry => ⟨result.lineNumber, result.distance, some entry⟩
    | none => result

/-- The comparison `(a, b) => a.distance - b.distance` passed to
`Array.prototype.sort` in `sortByDistance`, as the Boolean order it induces. -/
def distLE (a b : SearchResult) : Bool := a.distance ≤ b.distance

/-- `sortByDistance` (`src/unnamed/part_008` lines 61-63):
`[...results].sort((a, b) => a.distance - b.distance)`. ECMAScript sort is
required to be stable, so it is modelled by the stable `List.mergeSort`
under the comparator's order. -/
def sortByDistance (results : List SearchResult) : List SearchResult :=
  results.mergeSort distLE

/-- `filterByDateRange` (`src/src/spawn.ts` utils section, lines 271-285):
entries without a timestamp are kept; otherwise drop entries strictly before
`afterDate` or strictly after `beforeDate`. -/
def filterByDateRange (entries : List TextEntry) (afterDate beforeDate : Option ℤ) :
    List TextEntry :=
  if afterDate.isNone && beforeDate.isNone then entries
  else
    entries.filter fun entry =>
      match entry.timestamp with
      | none => true
      | some t =>
        (match afterDate with
         | some a => decide (a ≤ t)
         | none => true) &&
        (match beforeDate with
         | some b => decide (t ≤ b)
         | none => true)

/-- The date-filter join of `src/interactive-search.ts` `main`
(lines 341-358 and 382): filter the entry list by date range, and when that
changed the length, keep only raw results whose `lineNumber` lies in
`new Set(entries.map((_, i) => i))` — the indices `0 .. entries.length - 1`
of the already-filtered list — then assemble against the filtered list. -/
def searchAndJoin (allEntries : List TextEntry) (afterDate beforeDate : Option ℤ)
    (rawResults : List SearchResult) : List SearchResult :=
  let entries := filterByDateRange allEntries afterDate beforeDate
  let filtered := allEntries.length != entries.length
  let results :=
    if filtered then
      rawResults.filter fun r => (List.range entries.length).contains r.lineNumber
    else rawResults
  sortByDistance (attachEntries results entries)

/-- The auto-expand policy of `src/interactive-search.ts` `main`
(lines 360-380, unfiltered path): one call at the current cutoff; on zero
results and `currentDistance < EXPANDED_DISTANCE`, exactly one further call
at `EXPANDED_DISTANCE`; `none` means the "No results found." report. The
second component is the trace of cutoffs passed to the primitive. -/
def autoExpandSearch (probe : SearchPrimitive) (currentDistance : ℚ) :
    Except Unit (Option (List SearchResult)) × List ℚ :=
  match probe currentDistance with
  | .error e => (.error e, [currentDistance])
  | .ok res =>
    if res.length = 0 then
      if currentDistance < EXPANDED_DISTANCE then
        match probe EXPANDED_DISTANCE with
        | .error e => (.error e, [currentDistance, EXPANDED_DISTANCE])
        | .ok res2 =>
          if res2.length = 0 then (.ok none, [currentDistance, EXPANDED_DISTANCE])
          else (.ok (some res2), [currentDistance, EXPANDED_DISTANCE])
      else (.ok none, [currentDistance])
    else (.ok (some res), [currentDistance])

/-! ### Stub primitives used for concrete runs -/

/-- A primitive stub that returns zero results at every cutoff. -/
def probeAlwaysEmpty : SearchPrimitive := fun _ => .ok []

/-- A primitive stub that fails (rejects) at every cutoff. -/
def probeAlwaysFails : SearchPrimitive := fun _ => .error ()

/-- A primitive stub that returns a single hit at every cutoff. -/
def probeSingleHit : SearchPrimitive := fun _ => .ok [⟨0, 1/10, none⟩]

/-- A primitive stub that returns twenty hits at every cutoff. -/
def probeTwenty : SearchPrimitive :=
  fun _ => .ok ((List.range 20).map fun i => ⟨i, 1/10, none⟩)

/-- The spec's bracketing scenario stub: 5 hits at cutoff 0.30, 60 hits at
any other cutoff (in particular at 0.35 and 0.40). -/
def bracketScenarioProbe : SearchPrimitive := fun d =>
  if d = 3/10 then .ok ((List.range 5).map fun i => ⟨i, 3/10, none⟩)
  else .ok ((List.range 60).map fun i => ⟨i, d, none⟩)

/-! ### C3: first in-window probe accepts after exactly one call -/

/-- C3: in any refinement run whose first probe returns an in-window count
`1 ≤ c ≤ MAX_RESULTS_DISPLAY`, the probe loop terminates at once with the
`accepted` outcome carrying that first cutoff and its results, and the trace
shows exactly one primitive call. -/
theorem autoRefine_first_probe_accepted (probe : SearchPrimitive) (d : ℚ)
    (rest : List ℚ) (maxAttempts : ℕ) (res : List SearchResult)
    (hmax : 1 ≤ maxAttempts) (hprobe : probe d = .ok res)
    (h1 : 1 ≤ res.length) (h2 : res.length ≤ MAX_RESULTS_DISPLAY) :
    arLoop probe maxAttempts (d :: rest) 0 none =
      (.ok (.accepted d res), [d]) := by
  have hne : ¬ maxAttempts ≤ 0 := by omega
  have hz : ¬ res.length = 0 := by omega
  simp [arLoop, hne, hprobe, hz, h2]

/-- Witness for C3: a run of the engine's probe list with a stub returning
one hit accepts at the first threshold 0.30 after one call. -/
theorem autoRefine_first_probe_accepted_witness :
    1 ≤ AUTO_REFINE_MAX_ATTEMPTS ∧
    probeSingleHit (3/10) = .ok [⟨0, 1/10, none⟩] ∧
    1 ≤ ([⟨0, 1/10, (none : Option TextEntry)⟩] : List SearchResult).length ∧
    ([⟨0, 1/10, (none : Option TextEntry)⟩] : List SearchResult).length ≤ MAX_RESULTS_DISPLAY ∧
    arLoop probeSingleHit AUTO_REFINE_MAX_ATTEMPTS [3/10, 35/100, 4/10, 45/100, 5/10] 0 none =
      (.ok (.accepted (3/10) [⟨0, 1/10, none⟩]), [3/10]) :=
  ⟨by decide, rfl, by decide, by decide,
    autoRefine_first_probe_accepted probeSingleHit (3/10) [35/100, 4/10, 45/100, 5/10]
      AUTO_REFINE_MAX_ATTEMPTS [⟨0, 1/10, none⟩] (by decide) rfl (by decide) (by decide)⟩

/-! ### C4: primitive failure on the first probe propagates -/

/-- C4: if the primitive fails on the first probe of a refinement run, the
run propagates that failure, the trace shows the single probe issued, and in
particular the outcome is not any `.ok` value (so failure is never conflated
with a zero-result outcome). -/
theorem autoRefine_first_probe_failure_propagates (probe : SearchPrimitive)
    (d : ℚ) (rest : List ℚ) (maxAttempts : ℕ)
    (hmax : 1 ≤ maxAttempts) (hfail : probe d = .error ()) :
    arLoop probe maxAttempts (d :: rest) 0 none = (.error (), [d]) ∧
    ∀ o : RefineOutcome, (arLoop probe maxAttempts (d :: rest) 0 none).1 ≠ .ok o := by
  have hne : ¬ maxAttempts ≤ 0 := by omega
  constructor
  · simp [arLoop, hne, hfail]
  · intro o
    simp [arLoop, hne, hfail]

/-- Witness for C4: the always-failing stub makes the run fail on probe 0.30
with exactly one call. -/
theorem autoRefine_first_probe_failure_propagates_witness :
    1 ≤ AUTO_REFINE_MAX_ATTEMPTS ∧
    probeAlwaysFails (3/10) = .error () ∧
    (arLoop probeAlwaysFails AUTO_REFINE_MAX_ATTEMPTS [3/10, 35/100, 4/10, 45/100, 5/10] 0 none =
       (.error (), [3/10]) ∧
     ∀ o : RefineOutcome,
       (arLoop probeAlwaysFails AUTO_REFINE_MAX_ATTEMPTS [3/10, 35/100, 4/10, 45/100, 5/10] 0 none).1 ≠ .ok o) :=
  ⟨by decide, rfl,
    autoRefine_first_probe_failure_propagates probeAlwaysFails (3/10)
      [35/100, 4/10, 45/100, 5/10] AUTO_REFINE_MAX_ATTEMPTS (by decide) rfl⟩

/-! ### C7: all probes empty, within budget, ends in ExhaustedSearch -/

/-- Helper for C7: from any `attempt` count leaving enough budget for the
remaining probes, a run whose probes all return zero results walks the whole
probe list and ends exhausted, with the trace listing every probe once. -/
theorem arLoop_all_empty (probe : SearchPrimitive) (maxAttempts : ℕ) :
    ∀ (ds : List ℚ) (attempt : ℕ), attempt + ds.length ≤ maxAttempts →
      (∀ d ∈ ds, probe d = .ok []) →
      arLoop probe maxAttempts ds attempt none = (.ok .exhausted, ds)
  | [], attempt, _, _ => by simp [arLoop, arFinish]
  | d :: rest, attempt, hle, hall => by
    have hne : ¬ maxAttempts ≤ attempt := by
      simp only [List.length_cons] at hle; omega
    have hd : probe d = .ok [] := hall d (by simp)
    have ih := arLoop_all_empty probe maxAttempts rest (attempt + 1)
      (by simp only [List.length_cons] at hle; omega)
      (fun x hx => hall x (by simp [hx]))
    simp [arLoop, hne, hd, ih]

/-- C7: a refinement run in which every probe yields zero results and whose
probe list fits in the attempt budget issues exactly one primitive call per
probe (the trace is the probe list itself) and terminates with the
`exhausted` outcome as a normal `.ok` value, not an error. -/
theorem autoRefine_all_empty_exhausted (probe : SearchPrimitive)
    (ds : List ℚ) (maxAttempts : ℕ)
    (hlen : ds.length ≤ maxAttempts) (hall : ∀ d ∈ ds, probe d = .ok []) :
    arLoop probe maxAttempts ds 0 none = (.ok .exhausted, ds) :=
  arLoop_all_empty probe maxAttempts ds 0 (by omega) hall

/-- Witness for C7: the always-empty stub over the engine's five thresholds
makes exactly five calls and ends exhausted. -/
theorem autoRefine_all_empty_exhausted_witness :
    DISTANCE_THRESHOLDS.length ≤ AUTO_REFINE_MAX_ATTEMPTS ∧
    (∀ d ∈ DISTANCE_THRESHOLDS, probeAlwaysEmpty d = .ok []) ∧
    arLoop probeAlwaysEmpty AUTO_REFINE_MAX_ATTEMPTS DISTANCE_THRESHOLDS 0 none =
      (.ok .exhausted, DISTANCE_THRESHOLDS) :=
  ⟨by decide, fun d _ => rfl,
    autoRefine_all_empty_exhausted probeAlwaysEmpty DISTANCE_THRESHOLDS
      AUTO_REFINE_MAX_ATTEMPTS (by decide) (fun d _ => rfl)⟩

/-! ### C6: a probe meeting the soft target stops the bracket search -/

/-- C6: at any state of the bracket loop about to run an iteration (budget
remaining, width still above `BINARY_SEARCH_PRECISION`), if the midpoint
probe returns a count in `[OPTIMAL_RESULT_MIN, MAX_RESULTS_DISPLAY]`, the
loop returns that midpoint's cutoff and results at once: the trace from this
state is exactly the single midpoint probe, so no narrowing iteration or
primitive call follows. -/
theorem bsLoop_optimal_count_stops (probe : SearchPrimitive) (fuel : ℕ)
    (left right bestD : ℚ) (bestC : ℕ) (res : List SearchResult)
    (hw : BINARY_SEARCH_PRECISION < right - left)
    (hp : probe (bsMid left right) = .ok res)
    (hmin : OPTIMAL_RESULT_MIN ≤ res.length)
    (hmax : res.length ≤ MAX_RESULTS_DISPLAY) :
    bsLoop probe (fuel + 1) left right bestD bestC =
      (.ok (.earlyAccept (bsMid left right) res), [bsMid left right]) := by
  have hz : ¬ res.length = 0 := by
    have : (15 : ℕ) ≤ res.length := hmin
    omega
  simp [bsLoop, hw, hp, hz, hmax, hmin]

/-- Witness for C6: a bracket iteration on `[0.30, 0.40]` whose midpoint
0.35 yields 20 results accepts immediately with a one-call trace. -/
theorem bsLoop_optimal_count_stops_witness :
    BINARY_SEARCH_PRECISION < (4/10 : ℚ) - 3/10 ∧
    probeTwenty (bsMid (3/10) (4/10)) =
      .ok ((List.range 20).map fun i => ⟨i, 1/10, none⟩) ∧
    OPTIMAL_RESULT_MIN ≤ ((List.range 20).map fun i =>
      (⟨i, 1/10, none⟩ : SearchResult)).length ∧
    ((List.range 20).map fun i => (⟨i, 1/10, none⟩ : SearchResult)).length ≤
      MAX_RESULTS_DISPLAY ∧
    bsLoop probeTwenty 10 (3/10) (4/10) (3/10) 0 =
      (.ok (.earlyAccept (bsMid (3/10) (4/10))
        ((List.range 20).map fun i => ⟨i, 1/10, none⟩)), [bsMid (3/10) (4/10)]) :=
  ⟨by norm_num [BINARY_SEARCH_PRECISION], rfl,
    by simp [OPTIMAL_RESULT_MIN], by simp [MAX_RESULTS_DISPLAY],
    bsLoop_optimal_count_stops probeTwenty 9 (3/10) (4/10) (3/10) 0
      ((List.range 20).map fun i => ⟨i, 1/10, none⟩)
      (by norm_num [BINARY_SEARCH_PRECISION]) rfl
      (by simp [OPTIMAL_RESULT_MIN]) (by simp [MAX_RESULTS_DISPLAY])⟩

/-! ### C9: inverted bracket bounds -/

/-- Counterexample to C9: calling `binarySearchDistance` with inverted
bounds (`left = 0.5 > right = 0.3`) does not fail with a validation error:
it silently returns the not-found signal `.ok none` after zero primitive
calls, so the malformed input is turned into exactly the no-result return
the claim rules out. -/
theorem binarySearch_inverted_bounds_counterexample :
    binarySearchDistance probeTwenty (1/2) (3/10) 10 = (.ok none, []) := by
  have hw : ¬ BINARY_SEARCH_PRECISION < (3/10 : ℚ) - 1/2 := by
    norm_num [BINARY_SEARCH_PRECISION]
  suffices h : ∀ f : ℕ, binarySearchDistance probeTwenty (1/2) (3/10) f = (.ok none, []) from
    h 10
  intro f
  cases f with
  | zero => rfl
  | succ f =>
    unfold binarySearchDistance bsLoop
    rw [if_neg hw]
    rfl

/-- C9 (amended): `binarySearchDistance` performs no validation of its
bounds. Whenever `right ≤ left` on entry, the loop condition fails at once,
no primitive call is issued, and the call returns the not-found signal
`.ok none` — it never raises an error for the malformed bracket. -/
theorem binarySearch_inverted_bounds_silent (probe : SearchPrimitive)
    (minDistance maxDistance : ℚ) (remainingAttempts : ℕ)
    (h : maxDistance ≤ minDistance) :
    binarySearchDistance probe minDistance maxDistance remainingAttempts =
      (.ok none, []) := by
  have hw : ¬ BINARY_SEARCH_PRECISION < maxDistance - minDistance := by
    unfold BINARY_SEARCH_PRECISION
    intro hc
    linarith
  cases remainingAttempts with
  | zero => simp [binarySearchDistance, bsLoop]
  | succ f => simp [binarySearchDistance, bsLoop, hw]

/-- Witness for C9 (amended): inverted bounds `0.5 ≥ 0.3` with a live stub
return `.ok none` and an empty trace. -/
theorem binarySearch_inverted_bounds_silent_witness :
    (3/10 : ℚ) ≤ 1/2 ∧
    binarySearchDistance probeAlwaysEmpty (1/2) (3/10) 10 = (.ok none, []) :=
  ⟨by norm_num,
    binarySearch_inverted_bounds_silent probeAlwaysEmpty (1/2) (3/10) 10 (by norm_num)⟩

/-! ### C1: the bracketing hand-off -/

/-- Helper for C1: the run of the spec's bracketing scenario. With probes
`[0.30, 0.35, 0.40]` and the stub returning 5 hits at 0.30, the probe loop
accepts at 0.30 immediately: one primitive call, no probe at 0.35, and no
bracketed binary search. -/
theorem bracketScenario_run :
    arLoop bracketScenarioProbe 15 [3/10, 35/100, 4/10] 0 none =
      (.ok (.accepted (3/10) ((List.range 5).map fun i => ⟨i, 3/10, none⟩)),
       [3/10]) := by
  have hp : bracketScenarioProbe (3/10) =
      .ok ((List.range 5).map fun i => ⟨i, 3/10, none⟩) := by
    simp [bracketScenarioProbe]
  norm_num [arLoop, hp, MAX_RESULTS_DISPLAY]

/-- Counterexample to C1: in the claim's concrete scenario (probes
`[0.30, 0.35, 0.40]`, counts 5 at 0.30 and 60 elsewhere) the engine does
not bracket between 0.30 and 0.35 and does not binary-search to a count in
`[15, 25]`: it returns the `accepted` outcome at cutoff 0.30 with the 5
results, and its trace shows 0.35 was never probed. -/
theorem autoRefine_bracket_counterexample :
    arLoop bracketScenarioProbe 15 [3/10, 35/100, 4/10] 0 none =
      (.ok (.accepted (3/10) ((List.range 5).map fun i => ⟨i, 3/10, none⟩)),
       [3/10]) :=
  bracketScenario_run

/-- Helper for C1: starting (as every top-level run does) with no recorded
`lastGoodDistance`, the probe loop's outcome is always a primitive failure,
a Stage-1 `accepted`, or `exhausted` — never `bracketAccepted` or
`fallbackAccepted`. The tracking update that could set `lastGoodDistance`
sits behind `results.length <= MAX_RESULTS_DISPLAY` inside the branch where
that comparison already failed, so it never fires. -/
theorem arLoop_no_bracket_aux (probe : SearchPrimitive) (maxAttempts : ℕ) :
    ∀ (ds : List ℚ) (attempt : ℕ),
      (arLoop probe maxAttempts ds attempt none).1 = .error () ∨
      (∃ d res, (arLoop probe maxAttempts ds attempt none).1 = .ok (.accepted d res)) ∨
      (arLoop probe maxAttempts ds attempt none).1 = .ok .exhausted
  | [], attempt => by
    right; right
    simp [arLoop, arFinish]
  | d :: rest, attempt => by
    by_cases hm : maxAttempts ≤ attempt
    · right; right
      simp [arLoop, hm, arFinish]
    · cases hp : probe d with
      | error e =>
        cases e
        left
        simp [arLoop, hm, hp]
      | ok res =>
        by_cases hz : res.length = 0
        · have ih := arLoop_no_bracket_aux probe maxAttempts rest (attempt + 1)
          simpa [arLoop, hm, hp, hz] using ih
        · by_cases h25 : res.length ≤ MAX_RESULTS_DISPLAY
          · right; left
            exact ⟨d, res, by simp [arLoop, hm, hp, hz, h25]⟩
          · have ih := arLoop_no_bracket_aux probe maxAttempts rest (attempt + 1)
            simpa [arLoop, hm, hp, hz, h25] using ih

/-- C1 (amended): the bracketed binary search is unreachable from a
refinement run. Any probe with an in-window count ends the run at once with
`accepted`, so no later too-broad probe can pair with a recorded in-window
probe: `lastGoodDistance` stays `null` and every run ends in a primitive
failure, a Stage-1 accept, or exhaustion — never in a bracket result. In the
claim's concrete scenario the run accepts at 0.30 with the 5 results after
exactly one primitive call, never probing 0.35. -/
theorem autoRefine_never_brackets :
    (∀ (probe : SearchPrimitive) (maxAttempts : ℕ) (ds : List ℚ),
      (arLoop probe maxAttempts ds 0 none).1 = .error () ∨
      (∃ d res, (arLoop probe maxAttempts ds 0 none).1 = .ok (.accepted d res)) ∨
      (arLoop probe maxAttempts ds 0 none).1 = .ok .exhausted) ∧
    arLoop bracketScenarioProbe 15 [3/10, 35/100, 4/10] 0 none =
      (.ok (.accepted (3/10) ((List.range 5).map fun i => ⟨i, 3/10, none⟩)),
       [3/10]) :=
  ⟨fun probe maxAttempts ds => arLoop_no_bracket_aux probe maxAttempts ds 0,
    bracketScenario_run⟩

/-! ### C5: bracket width halves and the loop is logarithmically bounded -/

/-- Helper for C5: if the initial bracket width is at most
`BINARY_SEARCH_PRECISION * 2 ^ k`, the loop probes at most `k` midpoints,
because each continuing iteration exactly halves the width. -/
theorem bsLoop_trace_le (probe : SearchPrimitive) (k : ℕ) :
    ∀ (fuel : ℕ) (left right bestD : ℚ) (bestC : ℕ),
      right - left ≤ BINARY_SEARCH_PRECISION * 2 ^ k →
      (bsLoop probe fuel left right bestD bestC).2.length ≤ k := by
  induction k with
  | zero =>
    intro fuel left right bestD bestC h
    have hw : ¬ BINARY_SEARCH_PRECISION < right - left := by
      simp only [pow_zero, mul_one] at h
      exact not_lt.mpr h
    cases fuel with
    | zero => simp [bsLoop]
    | succ f => simp [bsLoop, hw]
  | succ k ih =>
    intro fuel left right bestD bestC h
    cases fuel with
    | zero => simp [bsLoop]
    | succ f =>
      by_cases hw : BINARY_SEARCH_PRECISION < right - left
      · have hsplit : BINARY_SEARCH_PRECISION * 2 ^ (k + 1) =
            BINARY_SEARCH_PRECISION * 2 ^ k * 2 := by ring
        rw [hsplit] at h
        have hhalf_r : right - bsMid left right ≤ BINARY_SEARCH_PRECISION * 2 ^ k := by
          unfold bsMid
          linarith
        have hhalf_l : bsMid left right - left ≤ BINARY_SEARCH_PRECISION * 2 ^ k := by
          unfold bsMid
          linarith
        cases hp : probe (bsMid left right) with
        | error e => simp [bsLoop, hw, hp]
        | ok res =>
          by_cases hz : res.length = 0
          · have hrec := ih f (bsMid left right) right bestD bestC hhalf_r
            simp only [bsLoop, hw, hp, hz, if_true, if_pos, List.length_cons]
            simp [hz]
            omega
          · by_cases h25 : res.length ≤ MAX_RESULTS_DISPLAY
            · by_cases h15 : OPTIMAL_RESULT_MIN ≤ res.length
              · simp [bsLoop, hw, hp, hz, h25, h15]
              · have hrec := ih f (bsMid left right) right (bsMid left right) res.length hhalf_r
                simp [bsLoop, hw, hp, hz, h25, h15]
                omega
            · have hrec := ih f left (bsMid left right) bestD bestC hhalf_l
              simp [bsLoop, hw, hp, hz, h25]
              omega
      · simp [bsLoop, hw]

/-- Helper for C5: the initial width is at most the precision scaled by
`2 ^ ceil(log2(width / precision))`, the quantity the claim's bound names. -/
theorem width_le_precision_pow_clog (left right : ℚ) :
    right - left ≤
      BINARY_SEARCH_PRECISION *
        2 ^ Nat.clog 2 ⌈(right - left) / BINARY_SEARCH_PRECISION⌉₊ := by
  have hp : (0 : ℚ) < BINARY_SEARCH_PRECISION := by
    norm_num [BINARY_SEARCH_PRECISION]
  rcases le_or_lt (right - left) 0 with h0 | h0
  · have hpos : (0 : ℚ) <
        BINARY_SEARCH_PRECISION *
          2 ^ Nat.clog 2 ⌈(right - left) / BINARY_SEARCH_PRECISION⌉₊ := by
      positivity
    linarith
  · have h1 : (right - left) / BINARY_SEARCH_PRECISION ≤
        (⌈(right - left) / BINARY_SEARCH_PRECISION⌉₊ : ℚ) :=
      Nat.le_ceil _
    have h2 : ⌈(right - left) / BINARY_SEARCH_PRECISION⌉₊ ≤
        2 ^ Nat.clog 2 ⌈(right - left) / BINARY_SEARCH_PRECISION⌉₊ :=
      Nat.le_pow_clog one_lt_two _
    have h3 : ((⌈(right - left) / BINARY_SEARCH_PRECISION⌉₊ : ℕ) : ℚ) ≤
        (2 : ℚ) ^ Nat.clog 2 ⌈(right - left) / BINARY_SEARCH_PRECISION⌉₊ := by
      exact_mod_cast h2
    have h4 : (right - left) / BINARY_SEARCH_PRECISION ≤
        (2 : ℚ) ^ Nat.clog 2 ⌈(right - left) / BINARY_SEARCH_PRECISION⌉₊ :=
      le_trans h1 h3
    rw [div_le_iff₀ hp] at h4
    linarith

/-- C5: for every bracket, each continuing iteration of the
`binarySearchDistance` loop halves the width `right - left` exactly
(strictly decreasing it, whichever of the three count outcomes occurs,
since every branch moves one bound to the midpoint `bsMid`), and the loop
issues at most `ceil(log2((right - left) / BINARY_SEARCH_PRECISION))`
midpoint probes before exiting. -/
theorem binarySearch_loop_halves_and_bounded (probe : SearchPrimitive)
    (fuel : ℕ) (left right bestD : ℚ) (bestC : ℕ) :
    (bsLoop probe fuel left right bestD bestC).2.length ≤
      Nat.clog 2 ⌈(right - left) / BINARY_SEARCH_PRECISION⌉₊ ∧
    ∀ l r : ℚ, l < r →
      bsMid l r - l = (r - l) / 2 ∧
      r - bsMid l r = (r - l) / 2 ∧
      r - bsMid l r < r - l ∧ bsMid l r - l < r - l := by
  constructor
  · exact bsLoop_trace_le probe _ fuel left right bestD bestC
      (width_le_precision_pow_clog left right)
  · intro l r hlt
    refine ⟨by unfold bsMid; ring, by unfold bsMid; ring, ?_, ?_⟩
    · unfold bsMid
      linarith
    · unfold bsMid
      linarith

/-- Witness for C5: the bound instantiated on the bracket `[0.30, 0.50]`
with the always-empty stub and budget 10. -/
theorem binarySearch_loop_halves_and_bounded_witness :
    (bsLoop probeAlwaysEmpty 10 (3/10) (5/10) (3/10) 0).2.length ≤
      Nat.clog 2 ⌈((5:ℚ)/10 - 3/10) / BINARY_SEARCH_PRECISION⌉₊ ∧
    ∀ l r : ℚ, l < r →
      bsMid l r - l = (r - l) / 2 ∧
      r - bsMid l r = (r - l) / 2 ∧
      r - bsMid l r < r - l ∧ bsMid l r - l < r - l :=
  binarySearch_loop_halves_and_bounded probeAlwaysEmpty 10 (3/10) (5/10) (3/10) 0

/-! ### C8: the assembler sorts stably and drops nothing -/

/-- The comparator order `distLE` is transitive. -/
theorem distLE_trans : ∀ a b c : SearchResult, distLE a b → distLE b c → distLE a c := by
  intro a b c hab hbc
  simp only [distLE, decide_eq_true_eq] at hab hbc ⊢
  exact le_trans hab hbc

/-- The comparator order `distLE` is total. -/
theorem distLE_total : ∀ a b : SearchResult, distLE a b || distLE b a := by
  intro a b
  simp only [distLE, Bool.or_eq_true, decide_eq_true_eq]
  exact le_total a.distance b.distance

/-- C8: for every match list (with unjoined entries, as the parser emits
them) and entry list, the assembled output `sortByDistance (attachEntries …)`
is sorted non-decreasingly by distance; it has exactly the length of the
input match list (no match dropped); ties are kept in input order (for each
distance value, the output's matches at that distance are exactly the
assembler input's, in order — stability); and every match whose `lineNumber`
is out of bounds is still present in the output with a null entry. -/
theorem assemble_sorted_stable_total (results : List SearchResult)
    (entries : List TextEntry) (hnull : ∀ r ∈ results, r.entry = none) :
    List.Pairwise (fun a b : SearchResult => a.distance ≤ b.distance)
      (sortByDistance (attachEntries results entries)) ∧
    (sortByDistance (attachEntries results entries)).length = results.length ∧
    (∀ d : ℚ,
      (sortByDistance (attachEntries results entries)).filter
          (fun r => decide (r.distance = d)) =
        (attachEntries results entries).filter (fun r => decide (r.distance = d))) ∧
    (∀ r ∈ results, entries[r.lineNumber]? = none →
      r ∈ sortByDistance (attachEntries results entries) ∧ r.entry = none) := by
  refine ⟨?_, ?_, ?_, ?_⟩
  · have hs := List.sorted_mergeSort distLE_trans distLE_total
      (attachEntries results entries)
    exact List.Pairwise.imp
      (fun {a b} h => by simpa [distLE] using h) hs
  · rw [sortByDistance, List.length_mergeSort, attachEntries, List.length_map]
  · intro d
    set l := attachEntries results entries with hl
    set p : SearchResult → Bool := fun r => decide (r.distance = d) with hpdef
    have hfl_pw : (l.filter p).Pairwise (fun a b => distLE a b) := by
      apply List.pairwise_of_forall_mem_list
      intro a ha b hb
      have had : a.distance = d := by
        have h2 := (List.mem_filter.mp ha).2
        simpa [hpdef] using h2
      have hbd : b.distance = d := by
        have h2 := (List.mem_filter.mp hb).2
        simpa [hpdef] using h2
      simp [distLE, had, hbd]
    have h1 : List.Sublist (l.filter p) (l.mergeSort distLE) :=
      List.sublist_mergeSort distLE_trans distLE_total hfl_pw (List.filter_sublist l)
    have h2 : List.Sublist ((l.filter p).filter p) ((l.mergeSort distLE).filter p) :=
      h1.filter p
    have hid : (l.filter p).filter p = l.filter p :=
      List.filter_eq_self.mpr fun a ha => (List.mem_filter.mp ha).2
    rw [hid] at h2
    have hlen : ((l.mergeSort distLE).filter p).length = (l.filter p).length :=
      ((List.mergeSort_perm l distLE).filter p).length_eq
    rw [sortByDistance]
    exact (h2.eq_of_length hlen.symm).symm
  · intro r hr hnone
    refine ⟨?_, hnull r hr⟩
    have hmem : r ∈ attachEntries results entries := by
      rw [attachEntries]
      refine List.mem_map.mpr ⟨r, hr, ?_⟩
      simp [hnone]
    simpa [sortByDistance] using hmem

/-- Concrete inputs for the C8 witness: two unjoined matches, the second
with an out-of-bounds `lineNumber`, against a one-entry list. -/
def witnessResults : List SearchResult := [⟨0, 2/10, none⟩, ⟨5, 1/10, none⟩]

/-- Concrete entry list for the C8 witness. -/
def witnessEntries : List TextEntry := [⟨"hello", "f", "p", none, none, none, none⟩]

/-- Witness for C8: the assembler property at the concrete two-match input. -/
theorem assemble_sorted_stable_total_witness :
    (∀ r ∈ witnessResults, r.entry = none) ∧
    (List.Pairwise (fun a b : SearchResult => a.distance ≤ b.distance)
      (sortByDistance (attachEntries witnessResults witnessEntries)) ∧
    (sortByDistance (attachEntries witnessResults witnessEntries)).length =
      witnessResults.length ∧
    (∀ d : ℚ,
      (sortByDistance (attachEntries witnessResults witnessEntries)).filter
          (fun r => decide (r.distance = d)) =
        (attachEntries witnessResults witnessEntries).filter
          (fun r => decide (r.distance = d))) ∧
    (∀ r ∈ witnessResults, witnessEntries[r.lineNumber]? = none →
      r ∈ sortByDistance (attachEntries witnessResults witnessEntries) ∧
      r.entry = none)) :=
  have hnull : ∀ r ∈ witnessResults, r.entry = none := by
    intro r hr
    fin_cases hr <;> rfl
  ⟨hnull, assemble_sorted_stable_total witnessResults witnessEntries hnull⟩

/-! ### C10: the interactive auto-expand policy -/

/-- C10: in the default interactive flow, a first call at `DEFAULT_DISTANCE`
returning zero results is followed by exactly one further call at
`EXPANDED_DISTANCE` (the trace is precisely those two cutoffs); if that call
also returns zero results the flow reports no results (`.ok none`); and for
every primitive and starting cutoff the policy issues at most two calls. -/
theorem autoExpand_two_call_policy (probe : SearchPrimitive)
    (res1 : List SearchResult)
    (h0 : probe DEFAULT_DISTANCE = .ok res1) (hz : res1.length = 0) :
    (autoExpandSearch probe DEFAULT_DISTANCE).2 =
      [DEFAULT_DISTANCE, EXPANDED_DISTANCE] ∧
    (∀ res2, probe EXPANDED_DISTANCE = .ok res2 → res2.length = 0 →
      (autoExpandSearch probe DEFAULT_DISTANCE).1 = .ok none) ∧
    (∀ (q : SearchPrimitive) (dist : ℚ), (autoExpandSearch q dist).2.length ≤ 2) := by
  have hlt : DEFAULT_DISTANCE < EXPANDED_DISTANCE := by
    norm_num [DEFAULT_DISTANCE, EXPANDED_DISTANCE, THRESHOLD_PRECISE, THRESHOLD_BROAD]
  refine ⟨?_, ?_, ?_⟩
  · cases hp2 : probe EXPANDED_DISTANCE with
    | error e => simp [autoExpandSearch, h0, hz, hlt, hp2]
    | ok res2 =>
      by_cases hz2 : res2.length = 0 <;>
        simp [autoExpandSearch, h0, hz, hlt, hp2, hz2]
  · intro res2 hp2 hz2
    simp [autoExpandSearch, h0, hz, hlt, hp2, hz2]
  · intro q dist
    cases hq : q dist with
    | error e => simp [autoExpandSearch, hq]
    | ok res =>
      by_cases hzq : res.length = 0
      · by_cases hl : dist < EXPANDED_DISTANCE
        · cases hq2 : q EXPANDED_DISTANCE with
          | error e => simp [autoExpandSearch, hq, hzq, hl, hq2]
          | ok res2 =>
            by_cases hz2 : res2.length = 0 <;>
              simp [autoExpandSearch, hq, hzq, hl, hq2, hz2]
        · simp [autoExpandSearch, hq, hzq, hl]
      · simp [autoExpandSearch, hq, hzq]

/-- Witness for C10: the always-empty stub makes the two calls and reports
no results. -/
theorem autoExpand_two_call_policy_witness :
    probeAlwaysEmpty DEFAULT_DISTANCE = .ok [] ∧
    ([] : List SearchResult).length = 0 ∧
    ((autoExpandSearch probeAlwaysEmpty DEFAULT_DISTANCE).2 =
      [DEFAULT_DISTANCE, EXPANDED_DISTANCE] ∧
    (∀ res2, probeAlwaysEmpty EXPANDED_DISTANCE = .ok res2 → res2.length = 0 →
      (autoExpandSearch probeAlwaysEmpty DEFAULT_DISTANCE).1 = .ok none) ∧
    (∀ (q : SearchPrimitive) (dist : ℚ), (autoExpandSearch q dist).2.length ≤ 2)) :=
  ⟨rfl, rfl, autoExpand_two_call_policy probeAlwaysEmpty [] rfl rfl⟩

/-! ### C2: the date-filter join -/

/-- An entry timestamped before the `--after` cutoff used in the C2 run. -/
def entryOld : TextEntry := ⟨"old entry", "f0.jsonl", "proj0", none, some 100, none, none⟩

/-- An entry timestamped after the `--after` cutoff used in the C2 run. -/
def entryNew : TextEntry := ⟨"new entry", "f1.jsonl", "proj1", none, some 200, none, none⟩

/-- C2 (code bug): with corpus `[entryOld, entryNew]`, an `--after` filter
that keeps only `entryNew`, and raw matches at lines 0 and 1, the pipeline
keeps the match whose `lineNumber` is 0 — the line that denoted `entryOld`
in the unfiltered corpus — and joins it to `entryNew` (the filtered list's
index 0), while dropping the match at line 1 even though the entry that
line denoted survived the filter. The kept result's attached entry is not
the entry its line number denoted in the unfiltered corpus. -/
theorem dateFilter_join_mismatch :
    filterByDateRange [entryOld, entryNew] (some 150) none = [entryNew] ∧
    searchAndJoin [entryOld, entryNew] (some 150) none
        [⟨0, 1/10, none⟩, ⟨1, 2/10, none⟩] = [⟨0, 1/10, some entryNew⟩] ∧
    [entryOld, entryNew][0]? = some entryOld ∧
    entryOld ≠ entryNew := by
  refine ⟨?_, ?_, rfl, ?_⟩
  · simp [filterByDateRange, entryOld, entryNew]
  · simp [searchAndJoin, filterByDateRange, entryOld, entryNew, attachEntries,
      sortByDistance, List.range_succ]
  · simp [entryOld, entryNew]
